import Mathlib

/-!
# AutoOtvet review pipeline — verification of the specification

Shallow embedding of the review ingestion-and-response pipeline of the
AutoOtvet repository (`backend/app/services/review_processor.py`,
`wildberries_api.py`, `ozon_api.py`, `llm_service.py`, together with the
relevant parts of `backend/app/db/models.py` and
`backend/app/api/endpoints.py`).

Modelling conventions:
* Python strings are Lean `String`s; `str.lower()` is modelled by
  `pyLower`, which covers the ASCII and basic Cyrillic letters appearing
  in the repository; `needle in haystack` is `pyInStr`.
* Python `None`-able values are `Option`s; Python truthiness of an
  optional list is `pyTruthyList`.
* Database commits are modelled as immediate persistence of object
  mutations: the database state is the list of `Review` records, and an
  ORM object's final field values are what the state records.  The
  `last_sync` timestamp and the `created_at`/`sent_at` datetime columns
  are not tracked: no property below observes them.
* Exceptions are explicit: fallible operations return `Except Err` or a
  result paired with `Option Err`; a caught-and-logged exception is a
  swallowed `Option Err`.
* Network and LLM effects are an explicit environment `Env` of oracles.
* Python floats in the cost computation are modelled by exact rationals.
-/

/-- Errors raised by the pipeline's collaborators, by Python exception
class where it matters (`ValueError` from length validation and `int()`,
`TypeError` from `len(None)`), with upstream/generation failures carrying
no further structure. -/
inductive Err where
  | valueError : Err
  | typeError : Err
  | upstreamError : Err
  | generationError : Err
deriving DecidableEq, Repr

/-- `moderation_status` column values: "pending" | "approved" | "rejected"
| "auto" (`db/models.py`, `Review.moderation_status`). -/
inductive ModerationStatus where
  | pending : ModerationStatus
  | approved : ModerationStatus
  | rejected : ModerationStatus
  | auto : ModerationStatus
deriving DecidableEq, Repr

/-- Python's `str.lower()` on a single character, restricted to the ASCII
Latin and basic Cyrillic (U+0410–U+042F, Ё) alphabets that occur in the
repository; every other character is left unchanged. -/
def pyLowerChar (c : Char) : Char :=
  if 'A' ≤ c ∧ c ≤ 'Z' then Char.ofNat (c.toNat + 32)
  else if 'А' ≤ c ∧ c ≤ 'Я' then Char.ofNat (c.toNat + 32)
  else if c = 'Ё' then 'ё'
  else c

/-- Python's `str.lower()` (see `pyLowerChar`). -/
def pyLower (s : String) : String :=
  String.mk (s.toList.map pyLowerChar)

/-- `needle` occurs as a contiguous sublist of `haystack`; the empty
needle occurs in every list, matching Python's `"" in s == True`. -/
def listSubstr (needle : List Char) : List Char → Bool
  | [] => needle.isEmpty
  | c :: t => needle.isPrefixOf (c :: t) || listSubstr needle t

/-- Python's substring test `needle in haystack`. -/
def pyInStr (needle haystack : String) : Bool :=
  listSubstr needle.toList haystack.toList

/-- Python truthiness of a nullable JSON list column: `None` and `[]` are
falsy, a non-empty list is truthy. -/
def pyTruthyList (o : Option (List String)) : Bool :=
  match o with
  | none => false
  | some l => !l.isEmpty

/-- `ReviewRule` row (`db/models.py`): the fields read by the pipeline.
Defaults mirror the column defaults. -/
structure ReviewRule where
  user_id : Nat := 0
  min_rating : Int := 1
  max_rating : Int := 5
  keywords_include : Option (List String) := none
  keywords_exclude : Option (List String) := none
  require_moderation : Bool := true
  custom_prompt : Option String := none
  tone : String := "friendly"
  is_active : Bool := true
deriving Repr

/-- `Review` row (`db/models.py`): identity and content fields plus the
processing-status and cost fields mutated by the pipeline.  Defaults
mirror the column defaults (`processed=False`, `response_sent=False`,
`moderation_status="pending"`, nullable columns `None`). -/
structure Review where
  marketplace_account_id : Nat := 0
  external_id : String := ""
  rating : Int := 0
  text : Option String := none
  product_name : Option String := none
  product_id : Option String := none
  customer_name : Option String := none
  processed : Bool := false
  response_text : Option String := none
  response_sent : Bool := false
  moderation_status : ModerationStatus := .pending
  tokens_used : Option Nat := none
  cost_rub : Option ℚ := none
deriving Repr, DecidableEq

/-- `MarketplaceAccount` row (`db/models.py`): the fields the pipeline
reads.  The credential is carried opaquely and never inspected. -/
structure MarketplaceAccount where
  id : Nat := 0
  user_id : Nat := 0
  marketplace : String := "wildberries"
  api_key_encrypted : String := ""
  client_id : Option String := none
  shop_name : Option String := none
  is_active : Bool := true
deriving Repr

/-- `ReviewProcessor._should_process_review` (`review_processor.py`
lines 187–217): rating-range check, then include-keyword check, then
exclude-keyword check over `(review.text or "").lower()` (the source's
local `review_text` binding is inlined). -/
def should_process_review (review : Review) (rules : ReviewRule) : Bool :=
  if ¬(rules.min_rating ≤ review.rating ∧ review.rating ≤ rules.max_rating) then
    false
  else if pyTruthyList rules.keywords_include ∧
      ¬((rules.keywords_include.getD []).any fun kw =>
        pyInStr (pyLower kw) (pyLower (review.text.getD ""))) then
    false
  else if pyTruthyList rules.keywords_exclude ∧
      ((rules.keywords_exclude.getD []).any fun kw =>
        pyInStr (pyLower kw) (pyLower (review.text.getD ""))) then
    false
  else
    true

/-- The moderation decision inlined at `review_processor.py` lines
171–176: `pending` when `rules.require_moderation or review.rating <= 3`,
else `auto`. -/
def moderation_decision (rules : ReviewRule) (rating : Int) : ModerationStatus :=
  if rules.require_moderation || decide (rating ≤ 3) then .pending else .auto

/-! ## LLM service (`llm_service.py`) -/

/-- `LLMService.PROVIDER_COSTS` (`llm_service.py` lines 24–33): cost per
1M tokens, `(input, output)`, in RUB, as exact rationals. -/
def PROVIDER_COSTS : List (String × ℚ × ℚ) :=
  [("openai", 15, 60),
   ("anthropic", 25, 125),
   ("google", 75/10, 30),
   ("gigachat", 160, 96),
   ("yandexgpt", 200, 120),
   ("perplexity", 20, 20),
   ("ollama", 0, 0)]

/-- `LLMService._calculate_cost` (`llm_service.py` lines 162–172):
`0` for an unknown provider, otherwise
`(input_tokens/1e6)*input_rate + (output_tokens/1e6)*output_rate`.
Python float arithmetic is modelled by exact rationals. -/
def calculate_cost (provider : String) (input_tokens output_tokens : Nat) : ℚ :=
  match PROVIDER_COSTS.lookup provider with
  | none => 0
  | some (input_cost_per_1m, output_cost_per_1m) =>
      (input_tokens : ℚ) / 1000000 * input_cost_per_1m +
      (output_tokens : ℚ) / 1000000 * output_cost_per_1m

/-- The base system prompt of `LLMService._build_system_prompt`
(`llm_service.py` lines 118–127). -/
def base_prompt : String :=
  "Ты менеджер магазина на маркетплейсе. \nТвоя задача — вежливо и профессионально ответить на отзыв покупателя.\n\nПравила ответа:\n- Отвечай кратко (до 200 символов)\n- Используй эмодзи умеренно (1-2 максимум)\n- Благодари за покупку\n- На негативные отзывы извиняйся и предлагай решение\n- На позитивные отзывы выражай благодарность\n"

/-- The `"friendly"` entry of `tone_additions`. -/
def friendly_addition : String :=
  "\nТон: дружелюбный и теплый, как общение с другом."

/-- The `"professional"` entry of `tone_additions`. -/
def professional_addition : String :=
  "\nТон: профессиональный и деловой, без лишних эмоций."

/-- The `"apologetic"` entry of `tone_additions`. -/
def apologetic_addition : String :=
  "\nТон: извиняющийся, предлагающий решение проблемы."

/-- The `tone_additions` dict of `_build_system_prompt` (`llm_service.py`
lines 129–133). -/
def tone_additions : List (String × String) :=
  [("friendly", friendly_addition),
   ("professional", professional_addition),
   ("apologetic", apologetic_addition)]

/-- `LLMService._build_system_prompt` (`llm_service.py` lines 116–135):
`base_prompt + tone_additions.get(tone, tone_additions["friendly"])`. -/
def build_system_prompt (tone : String) : String :=
  base_prompt ++ ((tone_additions.lookup tone).getD friendly_addition)

/-! ## Marketplace clients (`wildberries_api.py`, `ozon_api.py`)

A network send is an oracle `net : id → text → Except Err Unit`; the
client functions below are parametrised by it, so "no network call is
made" is expressed as the result not depending on the oracle. -/

/-- `WildberriesAPI.send_feedback_answer` (`wildberries_api.py` lines
81–120): raises `ValueError` when `len(text) < 2 or len(text) > 5000`,
before the POST; otherwise the outcome is the network's. -/
def send_feedback_answer (net : String → String → Except Err Unit)
    (feedback_id : String) (text : String) : Except Err Bool :=
  if text.length < 2 || text.length > 5000 then .error .valueError
  else
    match net feedback_id text with
    | .ok _ => .ok true
    | .error e => .error e

/-- `OzonAPI.send_review_answer` (`ozon_api.py` lines 78–112): posts the
payload with no validation of the text; the outcome is the network's. -/
def send_review_answer (net : Int → String → Except Err Unit)
    (review_id : Int) (text : String) : Except Err Bool :=
  match net review_id text with
  | .ok _ => .ok true
  | .error e => .error e

/-- A raw Wildberries feedback object (`parse_feedback`'s input): the
fields the parser reads, each possibly absent.  The nested
`productDetails` dict is flattened into its two read keys. -/
structure WBRawFeedback where
  id : Option String := none
  productValuation : Option Int := none
  text : Option String := none
  productName : Option String := none
  nmId : Option String := none
  userName : Option String := none
  createdDate : Option String := none
  answerText : Option String := none
deriving Repr

/-- A raw Ozon review object (`parse_review`'s input). -/
structure OzonRawReview where
  id : Option Int := none
  rating : Option Int := none
  text : Option String := none
  product_name : Option String := none
  product_id : Option Int := none
  user_name : Option String := none
  created_at : Option String := none
  answer : Option String := none
deriving Repr

/-- The canonical parsed-review dict produced by `parse_feedback` /
`parse_review` and consumed by the pipeline (`review_data`).  Timestamps
are carried as their (already validated) source strings. -/
structure ParsedReview where
  external_id : Option String := none
  rating : Int := 0
  text : String := ""
  product_name : Option String := none
  product_id : Option String := none
  customer_name : Option String := none
  marketplace_created_at : Option String := none
  is_answered : Bool := false
deriving Repr

/-- Minimal shape check standing for the domain of Python's
`datetime.fromisoformat`: a `YYYY-MM-DD` prefix.  Modelled: Python's
grammar is richer, but every string this check rejects (for instance
`"not-a-date"`) is also rejected by Python's parser, which is all the
parse-failure properties below need. -/
def iso_shape_ok (s : String) : Bool :=
  let cs := s.toList
  decide (10 ≤ cs.length) &&
  (cs.take 4).all Char.isDigit &&
  (cs.drop 4).take 1 = ['-'] &&
  ((cs.drop 5).take 2).all Char.isDigit &&
  (cs.drop 7).take 1 = ['-'] &&
  ((cs.drop 8).take 2).all Char.isDigit

/-- The call `s.replace("Z", "+00:00")` of the two parsers, written as a
structural character-wise substitution (the pattern is the single
character `"Z"`). -/
def replaceZ (s : String) : String :=
  String.mk ((s.toList.map fun c =>
    if c = 'Z' then "+00:00".toList else [c]).flatten)

/-- `datetime.fromisoformat(s.replace("Z", "+00:00"))` as a partial
function: `none` models the raised `ValueError` (see `iso_shape_ok`).
The parsed timestamp is carried as the source string itself. -/
def fromisoformat (s : String) : Option String :=
  if iso_shape_ok (replaceZ s) then some (replaceZ s) else none

/-- `WildberriesAPI.parse_feedback` (`wildberries_api.py` lines 131–152)
with the raised `ValueError` of a malformed non-empty `createdDate` made
explicit: every other field falls back to a default (`rating` 0, absent
`id` stays `None`) and never fails. -/
def parse_feedback (feedback : WBRawFeedback) : Except Err ParsedReview :=
  let created := feedback.createdDate.getD ""
  if created = "" then
    .ok { external_id := feedback.id,
          rating := feedback.productValuation.getD 0,
          text := feedback.text.getD "",
          product_name := feedback.productName,
          product_id := feedback.nmId,
          customer_name := feedback.userName,
          marketplace_created_at := none,
          is_answered := feedback.answerText.isSome }
  else
    match fromisoformat created with
    | none => .error .valueError
    | some ts =>
        .ok { external_id := feedback.id,
              rating := feedback.productValuation.getD 0,
              text := feedback.text.getD "",
              product_name := feedback.productName,
              product_id := feedback.nmId,
              customer_name := feedback.userName,
              marketplace_created_at := some ts,
              is_answered := feedback.answerText.isSome }

/-- `OzonAPI.parse_review` (`ozon_api.py` lines 123–144), with the same
explicit `ValueError` for a malformed non-empty `created_at`; note
`str(review.get("id"))` yields the string `"None"` for an absent id, and
`rating` falls back to 0. -/
def parse_review (review : OzonRawReview) : Except Err ParsedReview :=
  let created := review.created_at.getD ""
  let ext : String := match review.id with
    | some n => toString n
    | none => "None"
  let pid : String := match review.product_id with
    | some n => toString n
    | none => "None"
  if created = "" then
    .ok { external_id := some ext,
          rating := review.rating.getD 0,
          text := review.text.getD "",
          product_name := review.product_name,
          product_id := some pid,
          customer_name := review.user_name,
          marketplace_created_at := none,
          is_answered := review.answer.isSome }
  else
    match fromisoformat created with
    | none => .error .valueError
    | some ts =>
        .ok { external_id := some ext,
              rating := review.rating.getD 0,
              text := review.text.getD "",
              product_name := review.product_name,
              product_id := some pid,
              customer_name := review.user_name,
              marketplace_created_at := some ts,
              is_answered := review.answer.isSome }

/-- The list comprehension `[api.parse_feedback(r) for r in raw_reviews]`
(`review_processor.py` line 90): the first raised exception aborts the
whole comprehension. -/
def parse_feedbacks : List WBRawFeedback → Except Err (List ParsedReview)
  | [] => .ok []
  | r :: t =>
      match parse_feedback r with
      | .error e => .error e
      | .ok p =>
          match parse_feedbacks t with
          | .error e => .error e
          | .ok ps => .ok (p :: ps)

/-- The list comprehension `[api.parse_review(r) for r in raw_reviews]`
(`review_processor.py` line 99). -/
def parse_reviews : List OzonRawReview → Except Err (List ParsedReview)
  | [] => .ok []
  | r :: t =>
      match parse_review r with
      | .error e => .error e
      | .ok p =>
          match parse_reviews t with
          | .error e => .error e
          | .ok ps => .ok (p :: ps)

/-! ## Pipeline orchestrator (`review_processor.py`)

The database state is the list of `Review` rows; the external world is
an `Env` of oracles.  `Env.fetch` stands for
`get_unanswered_feedbacks()` / `get_unanswered_reviews()` **followed by
the per-record parse comprehension** of `_fetch_new_reviews` (lines
86–99): because that comprehension propagates the first parse exception,
fetch-plus-parse is one `Except` as a whole (the parse functions
themselves are modelled separately above).  `Env.get_rules u` is the
first `ReviewRule` row with `user_id = u` and `is_active = True`
returned by the rules query (lines 57–60). -/

/-- Result dict of `LLMService.generate_response`. -/
structure GenResult where
  response_text : String
  tokens_used : Nat
  cost_rub : ℚ
deriving Repr

/-- The oracles for the pipeline's external effects. -/
structure Env where
  fetch : MarketplaceAccount → Except Err (List ParsedReview)
  generate : String → Int → String → Option String → String → Option String →
    Except Err GenResult
  net_wb : String → String → Except Err Unit
  net_ozon : Int → String → Except Err Unit
  get_rules : Nat → Option ReviewRule
  auto_send_responses : Bool

/-- In-memory image of the `reviews` table. -/
structure Database where
  reviews : List Review := []
deriving Repr

/-- Python's `x or default` for a nullable string: `None` and `""` are
both falsy. -/
def pyOrStr (s : Option String) (dflt : String) : String :=
  match s with
  | none => dflt
  | some t => if t = "" then dflt else t

/-- Python's `int(s)` on a string, for the shapes the pipeline can pass
it: an optional minus sign followed by decimal digits; anything else
raises `ValueError` (`none`).  (Python additionally strips whitespace
and accepts `+` and underscores; no claim depends on those inputs.) -/
def pyStrToInt (s : String) : Option Int :=
  let digitsVal : List Char → Nat :=
    fun ds => ds.foldl (fun n c => 10 * n + (c.toNat - '0'.toNat)) 0
  match s.toList with
  | [] => none
  | '-' :: ds =>
      if ds ≠ [] ∧ ds.all Char.isDigit then some (-(digitsVal ds : Int))
      else none
  | ds =>
      if ds.all Char.isDigit then some (digitsVal ds : Int) else none

/-- The `Review(...)` constructor call of `_process_single_review`
(`review_processor.py` lines 134–143), with the column defaults of
`db/models.py`.  A `None` `external_id` (possible from the Wildberries
parser) would in fact fail the NOT NULL constraint at commit; no claim
exercises that corner, and it is modelled as the empty string. -/
def initial_review (account : MarketplaceAccount) (rd : ParsedReview) : Review :=
  { marketplace_account_id := account.id,
    external_id := rd.external_id.getD "",
    rating := rd.rating,
    text := some rd.text,
    product_name := rd.product_name,
    product_id := rd.product_id,
    customer_name := rd.customer_name }

/-- `ReviewProcessor._send_response` (`review_processor.py` lines
219–253): dispatch on the marketplace tag, then `response_sent = True`
only after the client call returns.  For `"ozon"`, `int(review.external_id)`
is evaluated first and its `ValueError` propagates.  A `None`
`response_text` (unreachable from the pipeline, which always sets the
text before sending) is modelled as the `TypeError` that `len(None)`
raises in the Wildberries client.  With a marketplace tag that is
neither branch, the code falls through and still sets
`response_sent = True` without any network call. -/
def send_response (env : Env) (account : MarketplaceAccount) (review : Review) :
    Review × Option Err :=
  if account.marketplace = "wildberries" then
    match review.response_text with
    | none => (review, some .typeError)
    | some t =>
        match send_feedback_answer env.net_wb review.external_id t with
        | .ok _ => ({ review with response_sent := true }, none)
        | .error e => (review, some e)
  else if account.marketplace = "ozon" then
    match pyStrToInt review.external_id with
    | none => (review, some .valueError)
    | some n =>
        match review.response_text with
        | none => (review, some .typeError)
        | some t =>
            match send_review_answer env.net_ozon n t with
            | .ok _ => ({ review with response_sent := true }, none)
            | .error e => (review, some e)
  else
    ({ review with response_sent := true }, none)

/-- `ReviewProcessor._process_single_review` (`review_processor.py`
lines 119–185), as the final field values of the one record it creates
plus the exception it re-raises, if any: create the record; stop (record
kept, `processed=False`) when the rule matcher says no; otherwise
generate, set response/cost fields and `processed=True`, apply the
moderation decision, and auto-send when enabled. -/
def run_single_review (env : Env) (account : MarketplaceAccount)
    (rd : ParsedReview) (rules : ReviewRule) : Review × Option Err :=
  let review := initial_review account rd
  if ¬ should_process_review review rules then
    (review, none)
  else
    match env.generate (pyOrStr review.text "Без текста") review.rating
        (pyOrStr review.product_name "товар") rules.custom_prompt rules.tone
        review.customer_name with
    | .error e => (review, some e)
    | .ok gen =>
        let review := { review with
          response_text := some gen.response_text,
          tokens_used := some gen.tokens_used,
          cost_rub := some gen.cost_rub,
          processed := true }
        if moderation_decision rules review.rating = .pending then
          ({ review with moderation_status := .pending }, none)
        else
          let review := { review with moderation_status := .auto }
          if env.auto_send_responses then
            send_response env account review
          else
            (review, none)

/-- `_process_single_review` as a state transformer: the created record
is appended to the table (its `add`/`commit` happens before any fallible
step, so the record persists on every path). -/
def process_single_review (env : Env) (account : MarketplaceAccount)
    (rd : ParsedReview) (rules : ReviewRule) (db : Database) :
    Database × Option Err :=
  let r := run_single_review env account rd rules
  ({ reviews := db.reviews ++ [r.1] }, r.2)

/-- The `external_id`s already recorded for an account
(`review_processor.py` lines 107–109). -/
def existing_ids (db : Database) (account_id : Nat) : List String :=
  (db.reviews.filter fun r => r.marketplace_account_id == account_id).map
    (·.external_id)

/-- The dedup filter predicate `r["external_id"] not in existing_ids`
(line 111); a `None` id is never a member of a set of strings. -/
def not_seen (existing : List String) (rd : ParsedReview) : Bool :=
  match rd.external_id with
  | none => true
  | some s => !existing.contains s

/-- `ReviewProcessor._fetch_new_reviews` (`review_processor.py` lines
73–117): client fetch + parse (via `Env.fetch`, whose error propagates),
then the dedup filter; an unknown marketplace tag logs and returns `[]`
before any fetch. -/
def fetch_new_reviews (env : Env) (account : MarketplaceAccount)
    (db : Database) : Except Err (List ParsedReview) :=
  if account.marketplace = "wildberries" ∨ account.marketplace = "ozon" then
    match env.fetch account with
    | .error e => .error e
    | .ok reviews => .ok (reviews.filter (not_seen (existing_ids db account.id)))
  else
    .ok []

/-- The review loop of `process_account` (`review_processor.py` lines
67–71): each review in its own `try/except`, so a raised error is logged
and the loop continues from the state the failed iteration left. -/
def process_reviews (env : Env) (account : MarketplaceAccount)
    (rules : ReviewRule) (new_reviews : List ParsedReview) (db : Database) :
    Database :=
  new_reviews.foldl
    (fun db rd => (process_single_review env account rd rules db).1) db

/-- `ReviewProcessor.process_account` (`review_processor.py` lines
38–71): fetch (errors propagate to the caller), return early on no new
reviews or no active rule, else run the review loop. -/
def process_account (env : Env) (account : MarketplaceAccount)
    (db : Database) : Database × Option Err :=
  match fetch_new_reviews env account db with
  | .error e => (db, some e)
  | .ok new_reviews =>
      if new_reviews.isEmpty then (db, none)
      else
        match env.get_rules account.user_id with
        | none => (db, none)
        | some rules => (process_reviews env account rules new_reviews db, none)

/-- `ReviewProcessor.process_all_accounts` (`review_processor.py` lines
24–36): the active accounts in a loop, each in its own `try/except`. -/
def process_all_accounts (env : Env) (accounts : List MarketplaceAccount)
    (db : Database) : Database :=
  (accounts.filter (·.is_active)).foldl
    (fun db a => (process_account env a db).1) db

/-! ## Stats endpoint (`api/endpoints.py`, `get_stats`, lines 217–224) -/

/-- `total_reviews` of `get_stats`. -/
def total_reviews (db : Database) : Nat := db.reviews.length

/-- `processed_reviews` of `get_stats`: `Review.processed == True`. -/
def processed_reviews_count (db : Database) : Nat :=
  (db.reviews.filter (·.processed)).length

/-- `pending_moderation` of `get_stats`:
`Review.moderation_status == "pending"`. -/
def pending_moderation_count (db : Database) : Nat :=
  (db.reviews.filter fun r =>
    decide (r.moderation_status = ModerationStatus.pending)).length

/-- `auto_sent` of `get_stats`: `Review.moderation_status == "auto"`. -/
def auto_sent_count (db : Database) : Nat :=
  (db.reviews.filter fun r =>
    decide (r.moderation_status = ModerationStatus.auto)).length

/-! ## Theorems -/

/-- C2: for every rule and every rating in 1–5 the moderation decision is
`pending` exactly when `rule.require_moderation` is true or the rating is
at most 3, and `auto` otherwise. -/
theorem moderation_gate_correct (rules : ReviewRule) (rating : Int)
    (h1 : 1 ≤ rating) (h5 : rating ≤ 5) :
    (moderation_decision rules rating = .pending ↔
      (rules.require_moderation = true ∨ rating ≤ 3)) ∧
    (moderation_decision rules rating = .auto ↔
      (rules.require_moderation = false ∧ 3 < rating)) := by
  unfold moderation_decision
  by_cases hm : rules.require_moderation <;> by_cases hr : rating ≤ 3 <;>
    (simp [hm, hr]; try omega)

/-- Witness for C2 at the spec's three concrete cases:
`require_moderation=true` at rating 5 gives `pending`,
`require_moderation=false` at rating 2 gives `pending`, and
`require_moderation=false` at rating 5 gives `auto`. -/
theorem moderation_gate_correct_witness :
    moderation_decision { require_moderation := true } 5 = .pending ∧
    moderation_decision { require_moderation := false } 2 = .pending ∧
    moderation_decision { require_moderation := false } 5 = .auto :=
  ⟨(moderation_gate_correct { require_moderation := true } 5 (by decide)
      (by decide)).1.mpr (Or.inl rfl),
   (moderation_gate_correct { require_moderation := false } 2 (by decide)
      (by decide)).1.mpr (Or.inr (by decide)),
   (moderation_gate_correct { require_moderation := false } 5 (by decide)
      (by decide)).2.mpr ⟨rfl, by decide⟩⟩

/-- C9: for every provider listed in `PROVIDER_COSTS` and all token
counts, the computed cost is
`(input_tokens/1e6)*input_rate + (output_tokens/1e6)*output_rate`; in
particular 1000 input and 500 output tokens at rates (160, 96) — the
`"gigachat"` row — cost 0.208 RUB. -/
theorem calculate_cost_correct (provider : String) (rates : ℚ × ℚ)
    (input_tokens output_tokens : Nat)
    (h : PROVIDER_COSTS.lookup provider = some rates) :
    calculate_cost provider input_tokens output_tokens =
      (input_tokens : ℚ) / 1000000 * rates.1 +
        (output_tokens : ℚ) / 1000000 * rates.2 ∧
    calculate_cost "gigachat" 1000 500 = 208 / 1000 := by
  constructor
  · unfold calculate_cost
    rw [h]
  · have key : PROVIDER_COSTS.lookup "gigachat" = some (160, 96) := rfl
    unfold calculate_cost
    rw [key]
    norm_num

/-- Witness for C9: the cost formula instantiated at the `"gigachat"`
row with 1000 input and 500 output tokens. -/
theorem calculate_cost_correct_witness :
    calculate_cost "gigachat" 1000 500 =
      (1000 : ℚ) / 1000000 * 160 + (500 : ℚ) / 1000000 * 96 :=
  (calculate_cost_correct "gigachat" (160, 96) 1000 500 (by decide)).1

/-- C10: the system-prompt builder is total in the tone argument — every
tone outside {friendly, professional, apologetic} yields the base prompt
with the friendly addition, the same output as tone `"friendly"`. -/
theorem build_system_prompt_default (tone : String)
    (h1 : tone ≠ "friendly") (h2 : tone ≠ "professional")
    (h3 : tone ≠ "apologetic") :
    build_system_prompt tone = base_prompt ++ friendly_addition ∧
    build_system_prompt tone = build_system_prompt "friendly" := by
  have e1 : (tone == "friendly") = false := beq_eq_false_iff_ne.mpr h1
  have e2 : (tone == "professional") = false := beq_eq_false_iff_ne.mpr h2
  have e3 : (tone == "apologetic") = false := beq_eq_false_iff_ne.mpr h3
  have hl : tone_additions.lookup tone = none := by
    simp [tone_additions, List.lookup, e1, e2, e3]
  have r2 : build_system_prompt "friendly" = base_prompt ++ friendly_addition := rfl
  constructor
  · simp [build_system_prompt, hl]
  · rw [r2]
    simp [build_system_prompt, hl]

/-- Witness for C10: the unknown tone `"angry"` is treated as
`"friendly"`. -/
theorem build_system_prompt_default_witness :
    build_system_prompt "angry" = base_prompt ++ friendly_addition ∧
    build_system_prompt "angry" = build_system_prompt "friendly" :=
  build_system_prompt_default "angry" (by decide) (by decide) (by decide)

/-- C6 counterexample: the claim quantifies over *every* marketplace
client variant, but the Ozon client performs no length validation at
all — with a length-1 text it goes straight to the network call and
returns whatever the network returns (here: success with one oracle,
upstream failure with another), never a `ValueError`. -/
theorem submit_validation_counterexample :
    send_review_answer (fun _ _ => .ok ()) 1 "a" = .ok true ∧
    send_review_answer (fun _ _ => .error .upstreamError) 1 "a" =
      .error .upstreamError := by
  exact ⟨rfl, rfl⟩

/-- C6 as amended: the *Wildberries* client rejects a text of length
outside [2, 5000] with `ValueError` before any network call (the result
does not depend on the network oracle), and a length-5000 text passes
its validation; the Ozon client performs no length validation — it never
raises a `ValueError` of its own (one can only come back from the
network oracle). -/
theorem submit_validation_amended (net net' : String → String → Except Err Unit)
    (onet : Int → String → Except Err Unit) (fid t5 : String) (rid : Int)
    (text : String) (hout : text.length < 2 ∨ text.length > 5000)
    (h5 : t5.length = 5000) :
    send_feedback_answer net fid text = .error .valueError ∧
    send_feedback_answer net fid text = send_feedback_answer net' fid text ∧
    send_feedback_answer (fun _ _ => .ok ()) fid t5 = .ok true ∧
    (send_review_answer onet rid text = .error .valueError →
      onet rid text = .error .valueError) := by
  have hb : (text.length < 2 || text.length > 5000) = true := by
    rcases hout with h | h <;> simp [h]
  refine ⟨?_, ?_, ?_, ?_⟩
  · simp [send_feedback_answer, hb]
  · simp [send_feedback_answer, hb]
  · simp [send_feedback_answer, h5]
  · intro hoz
    cases honet : onet rid text with
    | ok u => simp [send_review_answer, honet] at hoz
    | error e =>
        simp [send_review_answer, honet] at hoz
        rw [hoz]

/-- Witness for C6 (amended): length 1 is rejected by the Wildberries
client independently of the network, length 5000 passes, and the Ozon
client's success on the same length-1 text is not a `ValueError`. -/
theorem submit_validation_amended_witness :
    send_feedback_answer (fun _ _ => .ok ()) "fb1" "a" = .error .valueError ∧
    send_feedback_answer (fun _ _ => .ok ()) "fb1"
      (String.mk (List.replicate 5000 'д')) = .ok true :=
  ⟨(submit_validation_amended (fun _ _ => .ok ()) (fun _ _ => .error .upstreamError)
      (fun _ _ => .ok ()) "fb1" (String.mk (List.replicate 5000 'д')) 1 "a"
      (Or.inl (by decide))
      (by rw [show (String.mk (List.replicate 5000 'д')).length =
            (List.replicate 5000 'д').length from rfl, List.length_replicate])).1,
   (submit_validation_amended (fun _ _ => .ok ()) (fun _ _ => .error .upstreamError)
      (fun _ _ => .ok ()) "fb1" (String.mk (List.replicate 5000 'д')) 1 "a"
      (Or.inl (by decide))
      (by rw [show (String.mk (List.replicate 5000 'д')).length =
            (List.replicate 5000 'д').length from rfl, List.length_replicate])).2.2.1⟩

lemma pyInStr_pyLower_empty (kw : String) :
    pyInStr (pyLower kw) "" = kw.toList.isEmpty := by
  show (kw.toList.map pyLowerChar).isEmpty = kw.toList.isEmpty
  cases kw.toList <;> rfl

lemma toList_isEmpty_eq_false {kw : String} (h : kw ≠ "") :
    kw.toList.isEmpty = false := by
  rcases hk : kw.toList with _ | ⟨c, t⟩
  · exact absurd (String.toList_inj.mp (by rw [hk]; rfl)) h
  · rfl

/-- With empty review text, every non-empty keyword fails the substring
test, so the `any` over a keyword set of non-empty keywords is false. -/
lemma any_keyword_empty_text {kws : List String}
    (hkw : ∀ kw ∈ kws, kw ≠ "") :
    (kws.any fun kw => pyInStr (pyLower kw) (pyLower "")) = false := by
  rw [List.any_eq_false]
  intro kw hmem
  have h1 : pyInStr (pyLower kw) "" = false :=
    (pyInStr_pyLower_empty kw).trans (toList_isEmpty_eq_false (hkw kw hmem))
  simpa [show pyLower "" = "" from rfl] using h1

/-- C1 counterexample: a rule whose include-keyword set is the non-empty
list `[""]` matches a review with absent text (Python's `"" in ""` is
`True`), so "empty or absent text with a non-empty include set never
matches" is false as stated. -/
theorem rule_matcher_counterexample :
    pyTruthyList (some [""]) = true ∧
    should_process_review { rating := 3, text := none }
      { min_rating := 1, max_rating := 5, keywords_include := some [""] } =
      true := by
  decide

/-- C1 as amended: the matcher is false outside the rating range; with a
truthy include set it is true only when some include keyword occurs
case-insensitively in the text, and empty/absent text never matches
provided the include keywords are *non-empty strings* (an empty-string
keyword matches any text); an occurring exclude keyword forces false,
and empty text passes the exclude check provided the exclude keywords
are non-empty strings; plus the spec's two concrete cases. -/
theorem rule_matcher_amended (review : Review) (rules : ReviewRule) :
    (¬(rules.min_rating ≤ review.rating ∧ review.rating ≤ rules.max_rating) →
      should_process_review review rules = false) ∧
    (pyTruthyList rules.keywords_include = true →
      should_process_review review rules = true →
      ∃ kw ∈ rules.keywords_include.getD [],
        pyInStr (pyLower kw) (pyLower (review.text.getD ""))) ∧
    (pyTruthyList rules.keywords_include = true →
      (∀ kw ∈ rules.keywords_include.getD [], kw ≠ "") →
      review.text.getD "" = "" →
      should_process_review review rules = false) ∧
    (pyTruthyList rules.keywords_exclude = true →
      (∃ kw ∈ rules.keywords_exclude.getD [],
        pyInStr (pyLower kw) (pyLower (review.text.getD ""))) →
      should_process_review review rules = false) ∧
    (review.text.getD "" = "" →
      (∀ kw ∈ rules.keywords_exclude.getD [], kw ≠ "") →
      should_process_review review rules =
        should_process_review review { rules with keywords_exclude := none }) ∧
    should_process_review { rating := 5, text := some "Спасибо огромное" }
      { min_rating := 4, max_rating := 5, keywords_include := some ["спасибо"] } =
      true ∧
    should_process_review { rating := 5, text := some "норм" }
      { min_rating := 4, max_rating := 5, keywords_include := some ["спасибо"] } =
      false := by
  refine ⟨?_, ?_, ?_, ?_, ?_, by decide, by decide⟩
  · intro h
    unfold should_process_review
    rw [if_pos h]
  · intro hinc htrue
    unfold should_process_review at htrue
    split_ifs at htrue with h1 h2 h3
    rw [not_and, not_not] at h2
    simpa [List.any_eq_true] using h2 hinc
  · intro hinc hkw htext
    unfold should_process_review
    split_ifs with h1 h2 h3 <;> try rfl
    exfalso
    apply h2
    refine ⟨hinc, ?_⟩
    rw [htext]
    simp [any_keyword_empty_text hkw]
  · intro hexc hocc
    unfold should_process_review
    split_ifs with h1 h2 h3 <;> try rfl
    exfalso
    apply h3
    refine ⟨hexc, ?_⟩
    rw [List.any_eq_true]
    simpa using hocc
  · intro htext hkw
    have hany := any_keyword_empty_text hkw
    unfold should_process_review
    rw [htext]
    simp [hany, pyTruthyList]

/-- Witness for C1 (amended): rating 3 never matches a min-4 rule; with
the non-empty-keyword include set `["спасибо"]` an absent text never
matches; and with an empty text the exclude set `["плохо"]` behaves like
no exclude set at all. -/
theorem rule_matcher_amended_witness :
    should_process_review { rating := 3, text := some "Спасибо" }
      { min_rating := 4, max_rating := 5, keywords_include := some ["спасибо"] } =
      false ∧
    should_process_review { rating := 5, text := none }
      { min_rating := 4, max_rating := 5, keywords_include := some ["спасибо"] } =
      false ∧
    should_process_review { rating := 5, text := some "" }
      { min_rating := 4, max_rating := 5, keywords_exclude := some ["плохо"] } =
      should_process_review { rating := 5, text := some "" }
        { min_rating := 4, max_rating := 5, keywords_exclude := none } :=
  ⟨(rule_matcher_amended { rating := 3, text := some "Спасибо" }
      { min_rating := 4, max_rating := 5,
        keywords_include := some ["спасибо"] }).1 (by decide),
   (rule_matcher_amended { rating := 5, text := none }
      { min_rating := 4, max_rating := 5,
        keywords_include := some ["спасибо"] }).2.2.1 (by decide) (by decide) rfl,
   (rule_matcher_amended { rating := 5, text := some "" }
      { min_rating := 4, max_rating := 5,
        keywords_exclude := some ["плохо"] }).2.2.2.2.1 rfl (by decide)⟩

/-- C7 counterexample: the per-record parses are list comprehensions, so
one unparseable record (here: a malformed `createdDate`, which raises
`ValueError` inside `parse_feedback`) aborts the whole batch — the
following well-formed record, which parses fine on its own, is never
parsed or processed.  (Also, a missing rating or external id does not
fail a record at all: see the amended theorem.) -/
theorem parse_batch_counterexample :
    parse_feedback { id := some "good", productValuation := some 5,
                     text := some "ok" } =
      .ok { external_id := some "good", rating := 5, text := "ok" } ∧
    parse_feedback { id := some "bad", createdDate := some "not-a-date" } =
      .error .valueError ∧
    parse_feedbacks
      [{ id := some "bad", createdDate := some "not-a-date" },
       { id := some "good", productValuation := some 5, text := some "ok" }] =
      .error .valueError :=
  ⟨rfl, rfl, rfl⟩

/-- C7 as amended: a record whose timestamp cannot be parsed aborts the
entire batch comprehension of either client (the error propagates out of
the fetch step, to be caught only at the per-account boundary); and a
record with a missing rating or external id does not fail at all — it
parses with the defaults (rating 0, id `None`). -/
theorem parse_skip_and_log_amended (l1 l2 : List WBRawFeedback)
    (r : WBRawFeedback) (e : Err) (h : parse_feedback r = .error e)
    (ol1 ol2 : List OzonRawReview) (orv : OzonRawReview) (e' : Err)
    (ho : parse_review orv = .error e') :
    (∃ e2, parse_feedbacks (l1 ++ r :: l2) = .error e2) ∧
    (∃ e2, parse_reviews (ol1 ++ orv :: ol2) = .error e2) ∧
    (∀ raw : WBRawFeedback, raw.createdDate = none →
      parse_feedback raw =
        .ok { external_id := raw.id, rating := raw.productValuation.getD 0,
              text := raw.text.getD "", product_name := raw.productName,
              product_id := raw.nmId, customer_name := raw.userName,
              marketplace_created_at := none,
              is_answered := raw.answerText.isSome }) := by
  refine ⟨?_, ?_, ?_⟩
  · induction l1 with
    | nil => exact ⟨e, by simp [parse_feedbacks, h]⟩
    | cons a t ih =>
        cases ha : parse_feedback a with
        | error e2 => exact ⟨e2, by simp [parse_feedbacks, ha]⟩
        | ok p =>
            obtain ⟨e2, he2⟩ := ih
            exact ⟨e2, by simp [parse_feedbacks, ha, he2]⟩
  · induction ol1 with
    | nil => exact ⟨e', by simp [parse_reviews, ho]⟩
    | cons a t ih =>
        cases ha : parse_review a with
        | error e2 => exact ⟨e2, by simp [parse_reviews, ha]⟩
        | ok p =>
            obtain ⟨e2, he2⟩ := ih
            exact ⟨e2, by simp [parse_reviews, ha, he2]⟩
  · intro raw hnone
    simp [parse_feedback, hnone]

/-- Witness for C7 (amended): a well-formed record before a malformed
one does not save the Wildberries batch, a malformed Ozon record fails
its batch, and a Wildberries record with no rating and no id parses to
rating 0 and id `None`. -/
theorem parse_skip_and_log_amended_witness :
    (∃ e2, parse_feedbacks
      [{ id := some "g1", productValuation := some 4 },
       { id := some "b1", createdDate := some "not-a-date" }] = .error e2) ∧
    (∃ e2, parse_reviews [{ id := some 9, created_at := some "bad-date" }] =
      .error e2) ∧
    parse_feedback ({} : WBRawFeedback) =
      .ok { external_id := none, rating := 0, text := "" } :=
  ⟨(parse_skip_and_log_amended [{ id := some "g1", productValuation := some 4 }]
      [] { id := some "b1", createdDate := some "not-a-date" } .valueError rfl
      [] [] { id := some 9, created_at := some "bad-date" } .valueError rfl).1,
   (parse_skip_and_log_amended [{ id := some "g1", productValuation := some 4 }]
      [] { id := some "b1", createdDate := some "not-a-date" } .valueError rfl
      [] [] { id := some 9, created_at := some "bad-date" } .valueError rfl).2.1,
   (parse_skip_and_log_amended [{ id := some "g1", productValuation := some 4 }]
      [] { id := some "b1", createdDate := some "not-a-date" } .valueError rfl
      [] [] { id := some 9, created_at := some "bad-date" } .valueError rfl).2.2
      ({} : WBRawFeedback) rfl⟩

/-- A minimal environment for the skipped-review scenario: the LLM and
network oracles are never consulted because the review fails the rule
matcher. -/
def c5_env : Env :=
  { fetch := fun _ => .ok [],
    generate := fun _ _ _ _ _ _ => .error .generationError,
    net_wb := fun _ _ => .ok (),
    net_ozon := fun _ _ => .ok (),
    get_rules := fun _ => none,
    auto_send_responses := false }

def c5_account : MarketplaceAccount := { id := 1, marketplace := "wildberries" }

def c5_rule : ReviewRule := { min_rating := 4, max_rating := 5 }

def c5_rd : ParsedReview := { external_id := some "r1", rating := 1, text := "плохо" }

/-- C5 counterexample: a review that fails the Rule Matcher is persisted
with `processed=false` and `response_text` unset, but its
`moderation_status` is the column default `"pending"` and is never
changed, so the stats endpoint's pending-moderation count — which counts
`moderation_status == "pending"` — *includes* it: after processing one
non-matching review from an empty table the count is 1, where the claim
requires the skipped review to be excluded (count 0). -/
theorem skipped_review_counterexample :
    should_process_review (initial_review c5_account c5_rd) c5_rule = false ∧
    (run_single_review c5_env c5_account c5_rd c5_rule).1.processed = false ∧
    (run_single_review c5_env c5_account c5_rd c5_rule).1.response_text = none ∧
    pending_moderation_count
      (process_single_review c5_env c5_account c5_rd c5_rule
        { reviews := [] }).1 = 1 := by
  decide

/-- C5 as amended: a review failing the Rule Matcher is persisted and
terminal with `processed=false`, `response_text` unset and
`moderation_status` left at the default `"pending"`, and it is therefore
*included* in (it increments) the stats endpoint's pending-moderation
count. -/
theorem skipped_review_amended (env : Env) (account : MarketplaceAccount)
    (rd : ParsedReview) (rules : ReviewRule) (db : Database)
    (h : should_process_review (initial_review account rd) rules = false) :
    run_single_review env account rd rules = (initial_review account rd, none) ∧
    (initial_review account rd).processed = false ∧
    (initial_review account rd).response_text = none ∧
    (initial_review account rd).moderation_status = .pending ∧
    (process_single_review env account rd rules db).1.reviews =
      db.reviews ++ [initial_review account rd] ∧
    pending_moderation_count (process_single_review env account rd rules db).1 =
      pending_moderation_count db + 1 := by
  have h1 : run_single_review env account rd rules =
      (initial_review account rd, none) := by
    simp [run_single_review, h]
  refine ⟨h1, rfl, rfl, rfl, ?_, ?_⟩
  · simp [process_single_review, h1]
  · simp [process_single_review, h1, pending_moderation_count,
      List.filter_append, initial_review]

/-- Witness for C5 (amended): the concrete skipped review of the
counterexample, via the general theorem. -/
theorem skipped_review_amended_witness :
    run_single_review c5_env c5_account c5_rd c5_rule =
      (initial_review c5_account c5_rd, none) ∧
    pending_moderation_count
      (process_single_review c5_env c5_account c5_rd c5_rule
        { reviews := [] }).1 =
      pending_moderation_count { reviews := [] } + 1 :=
  ⟨(skipped_review_amended c5_env c5_account c5_rd c5_rule { reviews := [] }
      (by decide)).1,
   (skipped_review_amended c5_env c5_account c5_rd c5_rule { reviews := [] }
      (by decide)).2.2.2.2.2⟩

/-- `_send_response` never changes the identity, text, status or
processed fields of the record — it only may set `response_sent`. -/
lemma send_response_preserves (env : Env) (account : MarketplaceAccount)
    (review : Review) :
    (send_response env account review).1.marketplace_account_id =
      review.marketplace_account_id ∧
    (send_response env account review).1.external_id = review.external_id ∧
    (send_response env account review).1.response_text = review.response_text ∧
    (send_response env account review).1.moderation_status =
      review.moderation_status ∧
    (send_response env account review).1.processed = review.processed := by
  unfold send_response
  repeat' split
  all_goals simp

/-- Every path of `_process_single_review` keeps the created record's
dedup key: account id and external id. -/
lemma run_single_review_key (env : Env) (account : MarketplaceAccount)
    (rd : ParsedReview) (rules : ReviewRule) :
    (run_single_review env account rd rules).1.marketplace_account_id =
      account.id ∧
    (run_single_review env account rd rules).1.external_id =
      rd.external_id.getD "" := by
  simp only [run_single_review]
  repeat' split
  all_goals simp [send_response_preserves, initial_review]

lemma process_single_review_reviews (env : Env) (account : MarketplaceAccount)
    (rd : ParsedReview) (rules : ReviewRule) (db : Database) :
    (process_single_review env account rd rules db).1.reviews =
      db.reviews ++ [(run_single_review env account rd rules).1] := rfl

/-- The (account_id, external_id) dedup keys of the review table. -/
def review_keys (db : Database) : List (Nat × String) :=
  db.reviews.map fun r => (r.marketplace_account_id, r.external_id)

lemma process_reviews_keys (env : Env) (account : MarketplaceAccount)
    (rules : ReviewRule) (l : List ParsedReview) :
    ∀ db : Database,
      review_keys (process_reviews env account rules l db) =
        review_keys db ++
          (l.map fun rd => (account.id, rd.external_id.getD "")) := by
  induction l with
  | nil => intro db; simp [process_reviews]
  | cons rd t ih =>
      intro db
      unfold process_reviews at ih ⊢
      rw [List.foldl_cons, ih]
      have hk := run_single_review_key env account rd rules
      simp [review_keys, process_single_review_reviews, hk.1, hk.2]

lemma mem_existing_ids {db : Database} {a : Nat} {s : String} :
    s ∈ existing_ids db a ↔ (a, s) ∈ review_keys db := by
  simp only [existing_ids, review_keys, List.mem_map, List.mem_filter,
    beq_iff_eq, Prod.mk.injEq]
  constructor
  · rintro ⟨r, ⟨hr, hra⟩, hs⟩
    exact ⟨r, hr, hra, hs⟩
  · rintro ⟨r, hr, hra, hs⟩
    exact ⟨r, ⟨hr, hra⟩, hs⟩

def c3_rd : ParsedReview := { external_id := some "x", rating := 1 }

def c3_account : MarketplaceAccount := { id := 1, marketplace := "wildberries" }

/-- An upstream that returns the *same* review twice in one batch; the
single active rule has a 4–5 rating range, so both copies are persisted
as skipped records. -/
def c3_env : Env :=
  { fetch := fun _ => .ok [c3_rd, c3_rd],
    generate := fun _ _ _ _ _ _ => .error .generationError,
    net_wb := fun _ _ => .ok (),
    net_ozon := fun _ _ => .ok (),
    get_rules := fun _ => some { min_rating := 4, max_rating := 5 },
    auto_send_responses := false }

/-- The same environment with a single-copy fetch, for the witness. -/
def c3b_env : Env := { c3_env with fetch := fun _ => .ok [c3_rd] }

/-- C3 counterexample: the dedup filter only checks *already recorded*
ids, so a single fetched batch containing the same external id twice
creates two Review records with the identical (account_id, external_id)
pair — "at most one Review record ever exists per pair" is false (and
the `reviews` table has no unique constraint on the pair to stop it). -/
theorem dedup_idempotent_counterexample :
    ((process_account c3_env c3_account { reviews := [] }).1.reviews.filter
      fun r => r.marketplace_account_id == 1 && r.external_id == "x").length =
      2 := by
  decide

/-- C3 as amended: (i) a pipeline pass over an account whose fetched
reviews are all already recorded creates zero new Review records; (ii) a
pass whose fetched batch carries present and *pairwise-distinct*
external ids preserves uniqueness of the (account_id, external_id)
pairs — in-batch duplicates are the one unhandled case. -/
theorem dedup_idempotent_amended (env : Env) (account : MarketplaceAccount)
    (db : Database) (fetched : List ParsedReview)
    (hfetch : env.fetch account = .ok fetched) :
    ((∀ rd ∈ fetched, ∃ s, rd.external_id = some s ∧
        s ∈ existing_ids db account.id) →
      process_account env account db = (db, none)) ∧
    ((∀ rd ∈ fetched, rd.external_id.isSome = true) →
      (fetched.map fun rd => rd.external_id.getD "").Nodup →
      (review_keys db).Nodup →
      (review_keys (process_account env account db).1).Nodup) := by
  constructor
  · intro hall
    have hfil : fetched.filter (not_seen (existing_ids db account.id)) = [] := by
      rw [List.filter_eq_nil_iff]
      intro rd hmem
      obtain ⟨s, hs, hin⟩ := hall rd hmem
      simp [not_seen, hs, hin]
    by_cases hmp : account.marketplace = "wildberries" ∨
        account.marketplace = "ozon"
    · simp [process_account, fetch_new_reviews, hmp, hfetch, hfil]
    · simp [process_account, fetch_new_reviews, hmp]
  · intro hids hdist hdb
    by_cases hmp : account.marketplace = "wildberries" ∨
        account.marketplace = "ozon"
    case neg => simpa [process_account, fetch_new_reviews, hmp] using hdb
    have hfetch2 : fetch_new_reviews env account db =
        .ok (fetched.filter (not_seen (existing_ids db account.id))) := by
      simp [fetch_new_reviews, hmp, hfetch]
    by_cases hne : (fetched.filter
        (not_seen (existing_ids db account.id))).isEmpty = true
    · simpa [process_account, hfetch2, hne] using hdb
    cases hr : env.get_rules account.user_id with
    | none => simpa [process_account, hfetch2, hne, hr] using hdb
    | some rules =>
        have hgoal : review_keys (process_account env account db).1 =
            review_keys db ++
              ((fetched.filter (not_seen (existing_ids db account.id))).map
                fun rd => (account.id, rd.external_id.getD "")) := by
          simp [process_account, hfetch2, hne, hr,
            process_reviews_keys env account rules]
        rw [hgoal]
        apply List.Nodup.append hdb
        · have h1 : ((fetched.filter
              (not_seen (existing_ids db account.id))).map
                fun rd => rd.external_id.getD "").Nodup :=
            List.Sublist.nodup
              (List.Sublist.map _ (List.filter_sublist fetched)) hdist
          have h2 : ((fetched.filter (not_seen (existing_ids db account.id))).map
              fun rd => (account.id, rd.external_id.getD "")) =
              (((fetched.filter (not_seen (existing_ids db account.id))).map
                fun rd => rd.external_id.getD "").map
                  fun s => (account.id, s)) := by
            rw [List.map_map]
            rfl
          rw [h2]
          refine List.Nodup.map ?_ h1
          intro s t hst
          simpa using hst
        · intro k hk1 hk2
          simp only [List.mem_map] at hk2
          obtain ⟨rd, hrdnew, hkeq⟩ := hk2
          obtain ⟨hrdf, hseen⟩ := List.mem_filter.mp hrdnew
          obtain ⟨s, hs⟩ := Option.isSome_iff_exists.mp (hids rd hrdf)
          have hgd : rd.external_id.getD "" = s := by rw [hs]; rfl
          rw [← hkeq, hgd] at hk1
          have hmem : s ∈ existing_ids db account.id := mem_existing_ids.mpr hk1
          have hseen' : (existing_ids db account.id).contains s = false := by
            unfold not_seen at hseen
            rw [hs] at hseen
            simpa using hseen
          have hcontains : (existing_ids db account.id).contains s = true := by
            rw [List.contains_eq_any_beq, List.any_eq_true]
            exact ⟨s, hmem, by simp⟩
          rw [hseen'] at hcontains
          cases hcontains

/-- Witness for C3 (amended): with `"x"` already recorded, the pass
creates nothing; and a one-copy batch from an empty table keeps the keys
duplicate-free. -/
theorem dedup_idempotent_amended_witness :
    process_account c3_env c3_account
      { reviews := [{ marketplace_account_id := 1, external_id := "x" }] } =
      ({ reviews := [{ marketplace_account_id := 1, external_id := "x" }] },
        none) ∧
    (review_keys (process_account c3b_env c3_account { reviews := [] }).1).Nodup :=
  ⟨(dedup_idempotent_amended c3_env c3_account
      { reviews := [{ marketplace_account_id := 1, external_id := "x" }] }
      [c3_rd, c3_rd] rfl).1
      (by intro rd hrd
          simp only [List.mem_cons, List.not_mem_nil, or_false] at hrd
          rcases hrd with h | h <;> subst h <;> exact ⟨"x", rfl, by decide⟩),
   (dedup_idempotent_amended c3b_env c3_account { reviews := [] } [c3_rd]
      rfl).2
      (by intro rd hrd
          simp only [List.mem_cons, List.not_mem_nil, or_false] at hrd
          subst hrd
          rfl)
      (by decide) (by decide)⟩

/-- C4: partial-failure isolation at both granularities.  (i) A fetch
failure for one account leaves the database untouched and is caught at
the account-loop boundary, so (ii) a batch headed by a failing account
processes the remaining accounts exactly as if the failing account were
absent; and (iii) in the review loop, whatever error one review's
processing raises, the remaining reviews are processed from the state
that iteration left behind. -/
theorem partial_failure_isolation (env : Env) (a : MarketplaceAccount)
    (rest : List MarketplaceAccount) (db : Database) (e : Err)
    (hmp : a.marketplace = "wildberries" ∨ a.marketplace = "ozon")
    (hact : a.is_active = true)
    (hfail : env.fetch a = .error e) :
    process_account env a db = (db, some e) ∧
    process_all_accounts env (a :: rest) db = process_all_accounts env rest db ∧
    (∀ (account : MarketplaceAccount) (rules : ReviewRule) (rd : ParsedReview)
        (rds : List ParsedReview) (db' : Database),
      (process_single_review env account rd rules db').2.isSome = true →
      process_reviews env account rules (rd :: rds) db' =
        process_reviews env account rules rds
          (process_single_review env account rd rules db').1) := by
  have h1 : process_account env a db = (db, some e) := by
    simp [process_account, fetch_new_reviews, hmp, hfail]
  refine ⟨h1, ?_, ?_⟩
  · unfold process_all_accounts
    rw [List.filter_cons_of_pos (by simpa using hact), List.foldl_cons, h1]
  · intro account rules rd rds db' _
    unfold process_reviews
    rw [List.foldl_cons]

def c4_A : MarketplaceAccount := { id := 1, marketplace := "wildberries" }

def c4_B : MarketplaceAccount := { id := 2, marketplace := "wildberries" }

/-- Account 1's fetch raises an upstream error; account 2 returns one
matching review, which generates a reply and goes to moderation. -/
def c4_env : Env :=
  { fetch := fun acct =>
      if acct.id = 1 then .error .upstreamError
      else .ok [{ external_id := some "b1", rating := 5, text := "Спасибо" }],
    generate := fun _ _ _ _ _ _ =>
      .ok { response_text := "Благодарим вас!", tokens_used := 50,
            cost_rub := 1 / 100 },
    net_wb := fun _ _ => .ok (),
    net_ozon := fun _ _ => .ok (),
    get_rules := fun _ => some { min_rating := 1, max_rating := 5 },
    auto_send_responses := false }

/-- Witness for C4: with account A's fetch throwing, the batch over
[A, B] equals the batch over [B] alone, and B's review did get a
generated reply (`processed` count 1). -/
theorem partial_failure_isolation_witness :
    process_all_accounts c4_env [c4_A, c4_B] { reviews := [] } =
      process_all_accounts c4_env [c4_B] { reviews := [] } ∧
    processed_reviews_count
      (process_all_accounts c4_env [c4_A, c4_B] { reviews := [] }) = 1 :=
  ⟨(partial_failure_isolation c4_env c4_A [c4_B] { reviews := [] }
      .upstreamError (Or.inl rfl) rfl rfl).2.1,
   by decide⟩

/-- The lifecycle invariant a record must keep: a sent response has its
text set and an auto/approved moderation status. -/
def lifecycle_inv (r : Review) : Prop :=
  r.response_sent = true →
    r.response_text.isSome = true ∧
    (r.moderation_status = .auto ∨ r.moderation_status = .approved)

lemma send_response_inv (env : Env) (account : MarketplaceAccount)
    (review : Review) (ht : review.response_text.isSome = true)
    (hm : review.moderation_status = .auto) :
    lifecycle_inv (send_response env account review).1 := by
  have hp := send_response_preserves env account review
  intro _
  constructor
  · rw [hp.2.2.1]
    exact ht
  · rw [hp.2.2.2.1]
    exact Or.inl hm

/-- Every record `_process_single_review` creates satisfies the
(amended) lifecycle invariant: `response_sent` can only have been set on
the auto-send path, where the response text was set just before and the
status is `auto`. -/
lemma run_single_review_inv (env : Env) (account : MarketplaceAccount)
    (rd : ParsedReview) (rules : ReviewRule) :
    lifecycle_inv (run_single_review env account rd rules).1 := by
  simp only [run_single_review]
  split
  · intro h
    cases h
  · split
    · intro h
      cases h
    · split
      · intro h
        cases h
      · split
        · exact send_response_inv env account _ rfl rfl
        · intro h
          cases h

lemma process_reviews_inv (env : Env) (account : MarketplaceAccount)
    (rules : ReviewRule) (l : List ParsedReview) :
    ∀ db : Database, (∀ r ∈ db.reviews, lifecycle_inv r) →
      ∀ r ∈ (process_reviews env account rules l db).reviews,
        lifecycle_inv r := by
  induction l with
  | nil =>
      intro db hdb
      simpa [process_reviews] using hdb
  | cons rd t ih =>
      intro db hdb
      unfold process_reviews at ih ⊢
      rw [List.foldl_cons]
      apply ih
      intro r hr
      rw [process_single_review_reviews] at hr
      rcases List.mem_append.mp hr with hr | hr
      · exact hdb r hr
      · rw [List.mem_singleton.mp hr]
        exact run_single_review_inv env account rd rules

lemma process_account_inv (env : Env) (a : MarketplaceAccount)
    (db : Database) (hdb : ∀ r ∈ db.reviews, lifecycle_inv r) :
    ∀ r ∈ (process_account env a db).1.reviews, lifecycle_inv r := by
  cases hf : fetch_new_reviews env a db with
  | error e => simpa [process_account, hf] using hdb
  | ok nr =>
      by_cases hne : nr.isEmpty = true
      · simpa [process_account, hf, hne] using hdb
      · cases hr : env.get_rules a.user_id with
        | none => simpa [process_account, hf, hne, hr] using hdb
        | some rules =>
            have := process_reviews_inv env a rules nr db hdb
            simpa [process_account, hf, hne, hr] using this

/-- C8 as amended: the lifecycle invariant that actually holds over the
pipeline — `response_sent=true` implies `response_text` is *set* (it may
be the empty string: nothing checks the generated text for emptiness,
and the Ozon client sends without length validation) and
`moderation_status ∈ {auto, approved}` (only `auto` is ever produced). -/
theorem response_sent_invariant (env : Env)
    (accounts : List MarketplaceAccount) (db : Database)
    (hdb : ∀ r ∈ db.reviews, lifecycle_inv r) :
    ∀ r ∈ (process_all_accounts env accounts db).reviews, lifecycle_inv r := by
  unfold process_all_accounts
  induction accounts.filter (·.is_active) generalizing db with
  | nil => simpa using hdb
  | cons a t ih =>
      rw [List.foldl_cons]
      exact ih _ (process_account_inv env a db hdb)

def c8_account : MarketplaceAccount := { id := 2, marketplace := "ozon" }

/-- An LLM that returns an *empty* reply, an Ozon account, moderation
off, auto-send on: the empty reply is submitted (Ozon validates
nothing) and recorded as sent. -/
def c8_env : Env :=
  { fetch := fun _ => .ok [{ external_id := some "77", rating := 5,
                             text := "отлично" }],
    generate := fun _ _ _ _ _ _ =>
      .ok { response_text := "", tokens_used := 10, cost_rub := 0 },
    net_wb := fun _ _ => .ok (),
    net_ozon := fun _ _ => .ok (),
    get_rules := fun _ => some { min_rating := 1, max_rating := 5,
                                 require_moderation := false },
    auto_send_responses := true }

/-- C8 counterexample: a pipeline-reachable record with
`response_sent=true` whose `response_text` is the *empty* string — the
generated content is never checked for emptiness and the Ozon client
submits it without validation, so "`response_sent=true` implies
`response_text` is non-empty" fails on the code. -/
theorem response_sent_counterexample :
    ∃ r ∈ (process_account c8_env c8_account { reviews := [] }).1.reviews,
      r.response_sent = true ∧ r.response_text = some "" := by
  decide

/-- The record the C8 environment produces. -/
def c8_rec : Review :=
  { marketplace_account_id := 2, external_id := "77", rating := 5,
    text := some "отлично", processed := true, response_text := some "",
    response_sent := true, moderation_status := .auto,
    tokens_used := some 10, cost_rub := some 0 }

/-- Witness for C8 (amended): the invariant, instantiated at the
concrete sent record produced by the counterexample environment. -/
theorem response_sent_invariant_witness :
    c8_rec.response_text.isSome = true ∧
    (c8_rec.moderation_status = .auto ∨ c8_rec.moderation_status = .approved) :=
  response_sent_invariant c8_env [c8_account] { reviews := [] }
    (by intro r hr; cases hr) c8_rec (by decide) rfl

example : pyLower "Спасибо огромное" = "спасибо огромное" := by decide
example : pyInStr "спасибо" (pyLower "Спасибо огромное") = true := by decide
example : pyInStr "" "" = true := by decide
example :
    should_process_review { rating := 5, text := some "Спасибо огромное" }
      { min_rating := 4, max_rating := 5, keywords_include := some ["спасибо"] } = true := by
  decide
example :
    should_process_review { rating := 5, text := some "норм" }
      { min_rating := 4, max_rating := 5, keywords_include := some ["спасибо"] } = false := by
  decide
example :
    should_process_review { rating := 3, text := none }
      { min_rating := 1, max_rating := 5, keywords_include := some [""] } = true := by
  decide
